import Mathlib

/-!
Verification of the LSB steganography core of the `steno` repository.

The development shallowly embeds the bit-level codec of
`lsb_steganography.py` and the security layer of `security_utils.py`:

* images are modelled by their dimensions together with the raster-order
  list of blue-channel byte values (the only channel the code reads or
  writes);
* a payload matrix is its dimensions together with the raster-order list
  of cells, `true` standing for a black module (pixel value 0 in PIL
  mode `1`), which the source turns into the character `'1'`;
* Python byte strings are lists of `Nat` below 256, text strings are
  Lean `String`s (all strings involved are ASCII, so UTF-8 encoding is
  the identity on code points);
* functions that can raise return `Except String α`, the payload of
  `Except.error` being the exception message.

Machine integers are plain `Nat`s with explicit `% 2 ^ w` masking where
the source masks.
-/

/-- Decidable equality for `Except` results, so concrete runs of the
embedded functions can be checked by `decide`. -/
instance {ε α : Type} [DecidableEq ε] [DecidableEq α] : DecidableEq (Except ε α) := by
  intro a b
  cases a <;> cases b
  case error.error e f =>
    exact if h : e = f then isTrue (by rw [h]) else isFalse (by intro hc; cases hc; exact h rfl)
  case error.ok e v => exact isFalse (by intro hc; cases hc)
  case ok.error v e => exact isFalse (by intro hc; cases hc)
  case ok.ok v w =>
    exact if h : v = w then isTrue (by rw [h]) else isFalse (by intro hc; cases hc; exact h rfl)

namespace Steno

/-! ## Bit-level codec (`lsb_steganography.py`) -/

/-- Fuel-driven binary length of a natural number (`0` has length `0`);
the fuel makes the recursion structural so the kernel can evaluate it.
`n` itself is always enough fuel. -/
def bitLenAux : Nat → Nat → Nat
  | 0, _ => 0
  | fuel + 1, n => if n = 0 then 0 else bitLenAux fuel (n / 2) + 1

/-- Number of binary digits of `n` (and of Python `format(n, "b")`);
`1` for `0`, which formats as `"0"`. -/
def bitLen (n : Nat) : Nat :=
  if n = 0 then 1 else bitLenAux n n

/-- Binary digits of `n`, most significant first, exactly the digits of
Python `format(n, "b")` (never truncated). -/
def natBits (n : Nat) : List Bool :=
  (List.range (bitLen n)).map (fun i => n.testBit (bitLen n - 1 - i))

/-- Translation of `_int_to_binary`: `format(integer, f"0{bits}b")`,
fixed-width binary with leading-zero padding.  Like Python `format`,
the result is longer than `bits` when `integer ≥ 2 ^ bits`. -/
def _int_to_binary (integer : Nat) (bits : Nat) : List Bool :=
  let digits := natBits integer
  List.replicate (bits - digits.length) false ++ digits

/-- Translation of `_binary_to_int`: `int(binary_string, 2)`. -/
def _binary_to_int (binary_string : List Bool) : Nat :=
  binary_string.foldl (fun acc b => 2 * acc + (if b then 1 else 0)) 0

/-- Translation of `_embed_bit`: set or clear the least significant bit
of a pixel byte (`pixel & 254` / `pixel | 1`). -/
def _embed_bit (pixel_value : Nat) (bit : Bool) : Nat :=
  if bit = false then pixel_value &&& 254 else pixel_value ||| 1

/-- Translation of `_extract_lsb`: `'1'` iff the pixel value is odd. -/
def _extract_lsb (pixel_value : Nat) : Bool :=
  pixel_value % 2 == 1

/-- The 8-bit header terminator `HEADER_TERMINATOR_BIN = "00000000"`. -/
def headerTerminator : List Bool := List.replicate 8 false

/-! ## Data model -/

/-- A cover/stego image: dimensions and the raster-order (row-major,
top-to-bottom, left-to-right) list of blue-channel byte values.  The
red and green channels are never read nor written by the codec and are
omitted. -/
structure Image where
  width : Nat
  height : Nat
  pixels : List Nat
deriving DecidableEq, Repr

/-- A payload (QR) matrix: dimensions and the raster-order list of
cells; `true` is a black module, which the source encodes as bit `'1'`. -/
structure Matrix where
  width : Nat
  height : Nat
  cells : List Bool
deriving DecidableEq, Repr

/-! ## Capacity planner (`validate_qr_for_image`) -/

/-- Result dictionary of `validate_qr_for_image`.  The float
`utilization_percentage` is modelled as an exact rational. -/
structure QrValidation where
  valid : Bool
  qr_bits : Nat
  image_capacity : Nat
  header_bits : Nat
  total_bits_needed : Nat
  utilization_percentage : Rat
  remaining_capacity : Int
  warning : String
deriving DecidableEq, Repr

/-- Translation of `validate_qr_for_image`. -/
def validate_qr_for_image (qr_width qr_height image_width image_height : Nat) :
    QrValidation :=
  let header_bits := 16 + 16 + 8
  let qr_bits := qr_width * qr_height
  let total_bits_needed := header_bits + qr_bits
  let image_capacity := image_width * image_height
  let utilization_percentage : Rat :=
    if 0 < image_capacity then
      (total_bits_needed : Rat) / (image_capacity : Rat) * 100
    else 0
  let remaining_capacity : Int := (image_capacity : Int) - (total_bits_needed : Int)
  let is_valid := total_bits_needed ≤ image_capacity
  let warning :=
    if ¬ is_valid then
      "QR terlalu besar untuk gambar ini. Kekurangan " ++
        toString (-remaining_capacity) ++ " bit."
    else if 90 < utilization_percentage then
      "Peringatan: Penggunaan kapasitas sangat tinggi (>90%), kualitas gambar mungkin terpengaruh."
    else if 75 < utilization_percentage then
      "Peringatan: Penggunaan kapasitas tinggi (>75%), pertimbangkan resize QR."
    else if 50 < utilization_percentage then
      "Info: Penggunaan kapasitas sedang (>50%), masih dalam batas aman."
    else ""
  { valid := decide is_valid
    qr_bits := qr_bits
    image_capacity := image_capacity
    header_bits := header_bits
    total_bits_needed := total_bits_needed
    utilization_percentage := utilization_percentage
    remaining_capacity := remaining_capacity
    warning := warning }

/-! ## Shrink-to-fit (`_resize_qr_for_capacity`) -/

/-- Modelled from the spec: nearest-neighbor sampling of PIL
`Image.resize(..., Resampling.NEAREST)` (external library).  Output
cell `(i, j)` copies the input cell nearest to the centre of the
corresponding source region; every output cell is an exact copy of
some input cell, so binary on/off values are preserved. -/
def nearestSampleIndex (i newDim oldDim : Nat) : Nat :=
  min ((2 * i + 1) * oldDim / (2 * newDim)) (oldDim - 1)

/-- Modelled from the spec: nearest-neighbor resize of a monochrome
matrix to `newW × newH` (PIL `Image.resize` with `Resampling.NEAREST`,
external library). -/
def nearestResize (m : Matrix) (newW newH : Nat) : Matrix :=
  { width := newW
    height := newH
    cells :=
      (List.range (newH * newW)).map (fun k =>
        let j := k / newW
        let i := k % newW
        m.cells.getD
          (nearestSampleIndex j newH m.height * m.width +
            nearestSampleIndex i newW m.width) false) }

/-- Translation of `_resize_qr_for_capacity`.  `math.sqrt` applied to a
Python int is modelled as the exact integer square root (they agree for
every capacity below `2 ^ 52`). -/
def _resize_qr_for_capacity (qr_img : Matrix) (max_capacity : Nat) :
    Except String Matrix :=
  let available_bits_for_qr : Int := (max_capacity : Int) - (16 + 16 + 8)
  if available_bits_for_qr ≤ 0 then
    .error "Kapasitas cover image terlalu kecil bahkan untuk header saja."
  else
    let new_dimension := Nat.sqrt available_bits_for_qr.toNat
    if qr_img.width ≤ new_dimension ∧ qr_img.height ≤ new_dimension then
      .ok qr_img
    else
      .ok (nearestResize qr_img new_dimension new_dimension)

/-! ## LSB embedder (`embed_qr_to_image`) -/

/-- The pixel-mutation loop of `embed_qr_to_image` /
`embed_secure_qr_to_image`: write one data bit into the LSB of each
successive blue-channel byte until the data runs out; remaining pixels
are untouched. -/
def embedData : List Bool → List Nat → List Nat
  | _, [] => []
  | [], p :: ps => p :: ps
  | b :: bs, p :: ps => _embed_bit p b :: embedData bs ps

/-- Translation of `embed_qr_to_image` (file-existence and PNG-name
checks and all logging omitted; `recommend_qr_config_for_capacity` is
only printed from and does not affect the result).

The return value mirrors what the caller can observe at
`output_stego_path`:
* `Except.error msg` — a `ValueError` was raised, no file written;
* `Except.ok (some stego)` — the loop hit `StopIteration` and saved
  `stego` (this needs one spare pixel after the last data bit);
* `Except.ok none` — the pixel loop finished before `StopIteration`,
  the function fell through its final warning `print` and returned
  without ever saving a stego file. -/
def embed_qr_to_image (cover_img : Image) (qr_img : Matrix)
    (resize_qr_if_needed : Bool) : Except String (Option Image) := do
  let validation_result :=
    validate_qr_for_image qr_img.width qr_img.height cover_img.width cover_img.height
  let max_capacity := cover_img.width * cover_img.height
  -- "If validation fails, handle according to resize option"
  let qr1 ← (
    if ¬ validation_result.valid then
      if resize_qr_if_needed then
        _resize_qr_for_capacity qr_img max_capacity
      else
        .error ("Kapasitas citra tidak cukup. " ++ validation_result.warning)
    else .ok qr_img)
  -- second capacity check before building the bit stream
  let header_bits_len := 16 + 16 + 8
  let qr_bits_len := qr1.width * qr1.height
  let total_bits_needed := header_bits_len + qr_bits_len
  let qr2 ← (
    if max_capacity < total_bits_needed then
      if resize_qr_if_needed then
        _resize_qr_for_capacity qr1 max_capacity
      else
        .error ("Kapasitas citra tidak cukup. Dibutuhkan: " ++ toString total_bits_needed ++
          " bits, Tersedia: " ++ toString max_capacity ++ " bits.")
    else .ok qr1)
  let qr_bits := qr2.cells
  let header_bits :=
    _int_to_binary qr2.width 16 ++ _int_to_binary qr2.height 16 ++ headerTerminator
  -- "Final validation after all processing"
  let final_validation :=
    validate_qr_for_image qr2.width qr2.height cover_img.width cover_img.height
  if ¬ final_validation.valid then
    .error ("Kapasitas citra tidak cukup bahkan setelah resize. " ++ final_validation.warning)
  else
    let data_bits := header_bits ++ qr_bits
    let stego_pixels := embedData data_bits cover_img.pixels
    if data_bits.length < max_capacity then
      .ok (some { width := cover_img.width, height := cover_img.height, pixels := stego_pixels })
    else
      -- the loop over all cover pixels ends without `StopIteration`:
      -- the save in the `StopIteration` handler is never reached
      .ok none

/-! ## LSB extractor (`extract_qr_from_image`) -/

/-- The header-scanning loop of `extract_qr_from_image`: extract one
LSB per pixel; once at least 40 bits are in hand, accept when the last
8 bits are the terminator and exactly 32 bits precede it, fail when a
terminator match leaves a header of the wrong length or when more than
`40 + 500` bits have been scanned.  On success returns the decoded QR
width and height together with the number of pixels consumed. -/
def scanHeader : List Nat → List Bool → Except String (Nat × Nat × Nat)
  | [], _ => .error "Gagal menemukan header QR Code dalam citra."
  | p :: rest, acc =>
    let acc2 := acc ++ [_extract_lsb p]
    if 16 + 16 + 8 ≤ acc2.length then
      if acc2.drop (acc2.length - 8) = headerTerminator then
        if acc2.length - 8 = 32 then
          .ok (_binary_to_int (acc2.take 16), _binary_to_int ((acc2.take 32).drop 16),
            acc2.length)
        else
          .error "Panjang header tidak sesuai setelah terminator ditemukan."
      else if 16 + 16 + 8 + 500 < acc2.length then
        .error "Terminator header tidak ditemukan dalam batas wajar piksel."
      else scanHeader rest acc2
    else scanHeader rest acc2

/-- Translation of `extract_qr_from_image` (file checks, PNG renaming
and logging omitted).  After the header is found the code resumes at
the pixel whose linear raster index equals the number of pixels already
processed, which on the raster-order pixel list is `List.drop`. -/
def extract_qr_from_image (stego_img : Image) : Except String Matrix := do
  let (qr_width, qr_height, pixels_processed) ← scanHeader stego_img.pixels []
  let num_qr_bits_expected := qr_width * qr_height
  let qr_bits_list :=
    ((stego_img.pixels.drop pixels_processed).take num_qr_bits_expected).map _extract_lsb
  if qr_bits_list.length < num_qr_bits_expected then
    .error ("Data tidak cukup. Hanya " ++ toString qr_bits_list.length ++ " dari " ++
      toString num_qr_bits_expected ++ " bit QR yang bisa diekstrak.")
  else
    .ok { width := qr_width, height := qr_height, cells := qr_bits_list }

/-! ## Byte/string helpers

Python text strings are modelled as Lean `String`s; every string fed to
a hash in this code base (binary-digit strings, base64 keys, decimal
timestamps, hex digests) is ASCII, so `encode("utf-8")` is the
code-point map. -/

/-- UTF-8 bytes of an ASCII string. -/
def strBytes (s : String) : List Nat := s.data.map Char.toNat

/-- The character string of a bit stream, `'1'` for a set bit, exactly
as the source builds `qr_bits`. -/
def bitsToBitChars (bits : List Bool) : String :=
  String.mk (bits.map (fun b => if b then '1' else '0'))

/-- Big-endian byte-list to integer (`int.from_bytes(_, "big")`). -/
def bytesToNatBE (l : List Nat) : Nat := l.foldl (fun a b => a * 256 + b) 0

/-! ## SHA-256 (`hashlib.sha256`)

Modelled from the spec: `hashlib.sha256` is an external primitive; this
is the standard FIPS 180-4 SHA-256 over byte lists, words as `Nat`s
masked to 32 bits. -/

/-- Rotate a 32-bit word right by `n`. -/
def rotr32 (x n : Nat) : Nat := ((x >>> n) ||| (x <<< (32 - n))) % 4294967296

/-- SHA-256 round constants. -/
def shaK : List Nat :=
  [1116352408, 1899447441, 3049323471, 3921009573, 961987163,
   1508970993, 2453635748, 2870763221, 3624381080, 310598401,
   607225278, 1426881987, 1925078388, 2162078206, 2614888103,
   3248222580, 3835390401, 4022224774, 264347078, 604807628,
   770255983, 1249150122, 1555081692, 1996064986, 2554220882,
   2821834349, 2952996808, 3210313671, 3336571891, 3584528711,
   113926993, 338241895, 666307205, 773529912, 1294757372,
   1396182291, 1695183700, 1986661051, 2177026350, 2456956037,
   2730485921, 2820302411, 3259730800, 3345764771, 3516065817,
   3600352804, 4094571909, 275423344, 430227734, 506948616,
   659060556, 883997877, 958139571, 1322822218, 1537002063,
   1747873779, 1955562222, 2024104815, 2227730452, 2361852424,
   2428436474, 2756734187, 3204031479, 3329325298]

/-- SHA-256 initial hash state. -/
def shaH0 : List Nat :=
  [1779033703, 3144134277, 1013904242, 2773480762, 1359893119,
   2600822924, 528734635, 1541459225]

/-- Big sigma-0 of SHA-256. -/
def bSig0 (x : Nat) : Nat := rotr32 x 2 ^^^ rotr32 x 13 ^^^ rotr32 x 22

/-- Big sigma-1 of SHA-256. -/
def bSig1 (x : Nat) : Nat := rotr32 x 6 ^^^ rotr32 x 11 ^^^ rotr32 x 25

/-- Small sigma-0 of SHA-256. -/
def sSig0 (x : Nat) : Nat := rotr32 x 7 ^^^ rotr32 x 18 ^^^ (x >>> 3)

/-- Small sigma-1 of SHA-256. -/
def sSig1 (x : Nat) : Nat := rotr32 x 17 ^^^ rotr32 x 19 ^^^ (x >>> 10)

/-- SHA-256 choice function (`¬x` as xor with the 32-bit mask). -/
def shaCh (x y z : Nat) : Nat := (x &&& y) ^^^ ((x ^^^ 4294967295) &&& z)

/-- SHA-256 majority function. -/
def shaMaj (x y z : Nat) : Nat := (x &&& y) ^^^ (x &&& z) ^^^ (y &&& z)

/-- Big-endian bytes of `n`, `len` bytes wide. -/
def natToBytesBE (n len : Nat) : List Nat :=
  (List.range len).map (fun i => n / 256 ^ (len - 1 - i) % 256)

/-- SHA-256 message padding: `0x80`, zeros to 56 mod 64, then the
64-bit big-endian bit length. -/
def shaPad (msg : List Nat) : List Nat :=
  msg ++ [128] ++ List.replicate ((119 - msg.length % 64) % 64) 0 ++
    natToBytesBE (msg.length * 8) 8

/-- One extension step of the SHA-256 message schedule. -/
def shaExtendStep (ws : List Nat) : List Nat :=
  let n := ws.length
  ws ++ [(sSig1 (ws.getD (n - 2) 0) + ws.getD (n - 7) 0 + sSig0 (ws.getD (n - 15) 0) +
    ws.getD (n - 16) 0) % 4294967296]

/-- The full 64-word SHA-256 message schedule from 16 input words. -/
def shaSchedule (w16 : List Nat) : List Nat :=
  (List.range 48).foldl (fun ws _ => shaExtendStep ws) w16

/-- One SHA-256 compression round on the 8-word working state. -/
def shaRound (st : List Nat) (kw : Nat) : List Nat :=
  match st with
  | [a, b, c, d, e, f, g, h] =>
    let t1 := (h + bSig1 e + shaCh e f g + kw) % 4294967296
    let t2 := (bSig0 a + shaMaj a b c) % 4294967296
    [(t1 + t2) % 4294967296, a, b, c, (d + t1) % 4294967296, e, f, g]
  | l => l

/-- SHA-256 compression of one 64-byte chunk into the hash state. -/
def shaCompress (hs : List Nat) (chunk : List Nat) : List Nat :=
  let ws := shaSchedule ((List.range 16).map (fun i => bytesToNatBE ((chunk.drop (4 * i)).take 4)))
  let st := (shaK.zip ws).foldl (fun st kw => shaRound st ((kw.1 + kw.2) % 4294967296)) hs
  (hs.zip st).map (fun p => (p.1 + p.2) % 4294967296)

/-- SHA-256 digest of a byte list, as a 32-byte list. -/
def sha256 (msg : List Nat) : List Nat :=
  let padded := shaPad msg
  let chunks := (List.range (padded.length / 64)).map (fun i => (padded.drop (64 * i)).take 64)
  (chunks.foldl shaCompress shaH0).foldl (fun acc w => acc ++ natToBytesBE w 4) []

/-- Lowercase hex digit. -/
def hexChar (n : Nat) : Char :=
  if n < 10 then Char.ofNat (48 + n) else Char.ofNat (87 + n)

/-- Lowercase hex string of a byte list (`hexdigest()`). -/
def bytesToHex (bytes : List Nat) : String :=
  String.mk (bytes.foldl (fun acc b => acc ++ [hexChar (b / 16), hexChar (b % 16)]) [])

/-! ## CRC-16 (`_calculate_crc16`) -/

/-- One inner-loop step of `_calculate_crc16`: shift left, conditionally
xor the generator polynomial `0x1021`, mask to 16 bits. -/
def crcStep (crc : Nat) : Nat :=
  if crc &&& 32768 ≠ 0 then ((crc <<< 1) ^^^ 4129) &&& 65535
  else (crc <<< 1) &&& 65535

/-- The running loop of `_calculate_crc16` from an arbitrary register
state: xor each byte into the high half, then eight `crcStep`s. -/
def crcUpdate (crc : Nat) (data : List Nat) : Nat :=
  data.foldl (fun crc byte =>
    (List.range 8).foldl (fun c _ => crcStep c) (crc ^^^ (byte <<< 8))) crc

/-- Translation of `_calculate_crc16`: CRC-16/CCITT-FALSE, initial
value `0xFFFF`, polynomial `0x1021`. -/
def _calculate_crc16 (data : List Nat) : Nat := crcUpdate 65535 data

/-! ## Security header codec (`add_security_header`,
`parse_security_header`, `validate_embedded_security`) -/

/-- The 32-bit truncated key fingerprint: first 4 bytes, big-endian, of
the SHA-256 digest of the UTF-8 key string (computed identically in
`add_security_header` and `validate_embedded_security`). -/
def key_hash_32bit (key : String) : Nat :=
  bytesToNatBE ((sha256 (strBytes key)).take 4)

/-- Translation of `add_security_header`.  The `timestamp` argument is
the decimal-string timestamp of the source, modelled by its numeric
value (`int(float(t))` is the identity on such strings below `2^53`).
Note the CRC-16 input `combined_data = qr_bits + key_hash + timestamp`
concatenates the raw key string passed in `key_hash`, not its 32-bit
fingerprint. -/
def add_security_header (qr_bits : List Bool) (key_hash : String) (timestamp : Nat) :
    List Bool :=
  let key_hash_bits := _int_to_binary (key_hash_32bit key_hash) 32
  let timestamp_bits := _int_to_binary timestamp 32
  let combined_data := bitsToBitChars qr_bits ++ key_hash ++ toString timestamp
  let checksum := _calculate_crc16 (strBytes combined_data)
  key_hash_bits ++ timestamp_bits ++ _int_to_binary checksum 16

/-- Modelled from the spec: the checksum as §4.6 of the spec describes
it — CRC-16 "computed over payload bits + key fingerprint + timestamp",
the fingerprint entering as its 32-bit binary string.  Named for the
refinement comparison with the source computation in
`add_security_header`, which hashes the raw key string instead. -/
def specDescribedChecksum (qr_bits : List Bool) (key : String) (timestamp : Nat) : Nat :=
  _calculate_crc16 (strBytes (bitsToBitChars qr_bits ++
    bitsToBitChars (_int_to_binary (key_hash_32bit key) 32) ++ toString timestamp))

/-- Parsed security header (the dictionary returned by
`parse_security_header`; the printed/diagnostic entries are omitted). -/
structure SecHeader where
  key_hash_bits : List Bool
  key_hash_int : Nat
  timestamp : Nat
  checksum : Nat
  header_valid : Bool
  header_length : Nat
deriving DecidableEq, Repr

/-- Translation of `parse_security_header`. -/
def parse_security_header (extracted_bits : List Bool) : SecHeader :=
  if extracted_bits.length < 80 then
    { key_hash_bits := [], key_hash_int := 0, timestamp := 0, checksum := 0,
      header_valid := false, header_length := 0 }
  else
    let key_hash_bits := extracted_bits.take 32
    let timestamp_bits := (extracted_bits.drop 32).take 32
    let checksum_bits := (extracted_bits.drop 64).take 16
    { key_hash_bits := key_hash_bits
      key_hash_int := _binary_to_int key_hash_bits
      timestamp := _binary_to_int timestamp_bits
      checksum := _binary_to_int checksum_bits
      header_valid := true
      header_length := 80 }

/-- Validation result of `validate_embedded_security` (the
`validation_details` diagnostics are omitted). -/
structure ValidationOutcome where
  key_valid : Bool
  timestamp_valid : Bool
  checksum_valid : Bool
  overall_valid : Bool
  security_score : Nat
deriving DecidableEq, Repr

/-- Translation of `validate_embedded_security`, with the wall clock
(`int(time.time())`) passed explicitly as `current_time`.  Note the
checksum check is only `checksum != 0`; no CRC is recomputed. -/
def validate_embedded_security (extracted_header : SecHeader) (document_key : String)
    (current_time : Nat) : ValidationOutcome :=
  if ¬ extracted_header.header_valid then
    { key_valid := false, timestamp_valid := false, checksum_valid := false,
      overall_valid := false, security_score := 0 }
  else
    let expected_key_hash := key_hash_32bit document_key
    let key_valid := extracted_header.key_hash_int == expected_key_hash
    let time_diff := ((current_time : Int) - (extracted_header.timestamp : Int)).natAbs
    let timestamp_valid := decide (time_diff ≤ 10 * 365 * 24 * 3600)
    let checksum_valid := extracted_header.checksum != 0
    { key_valid := key_valid
      timestamp_valid := timestamp_valid
      checksum_valid := checksum_valid
      overall_valid := key_valid && timestamp_valid && checksum_valid
      security_score :=
        (if key_valid then 50 else 0) + (if timestamp_valid then 25 else 0) +
          (if checksum_valid then 25 else 0) }

/-! ## Payload cipher (`encrypt_qr_data`, `decrypt_qr_data`)

The `cryptography.fernet.Fernet` cipher is an external primitive.  It
is modelled from the spec as ideal authenticated symmetric encryption:
a token decrypts to its plaintext under the encrypting key and fails
closed (`InvalidToken`) under every other key.  The base64 transport of
the document key is modelled away: a valid document key (the 44-char
urlsafe base64 of 32 bytes) is represented by its decoded 32-byte
value, on which the canonical encoding is a bijection; such a string
always passes the source guard `len(document_key) >= 32`. -/

/-- Modelled from the spec: an authenticated-encryption token. -/
structure FernetToken where
  key : List Nat
  message : List Char
deriving DecidableEq, Repr

/-- Modelled from the spec: ideal authenticated encryption
(`Fernet(...).encrypt`). -/
def fernetEncrypt (key : List Nat) (message : List Char) : FernetToken :=
  { key := key, message := message }

/-- Modelled from the spec: ideal authenticated decryption
(`Fernet(...).decrypt`): returns the plaintext under the encrypting
key, raises `InvalidToken` under any other key. -/
def fernetDecrypt (key : List Nat) (token : FernetToken) : Except String (List Char) :=
  if token.key = key then .ok token.message else .error "InvalidToken"

/-- The `"enc:" + base64(token)` transport string produced by
`encrypt_qr_data`: the prefix tag plus the token it carries (base64 of
the token is a bijection and is modelled away). -/
structure EncryptedPayload where
  tagged : Bool
  token : FernetToken
deriving DecidableEq, Repr

/-- Python `str.strip()` whitespace, complete over the ASCII range:
codes 9-13 (tab, newline, vertical tab, form feed, carriage return),
28-31 (the file/group/record/unit separators, which `str.isspace()`
also accepts) and 32 (space).  Non-ASCII Unicode whitespace lies
outside the ASCII modelling scope of this development. -/
def isPythonSpace (c : Char) : Bool :=
  c.toNat == 32 || (9 ≤ c.toNat && c.toNat ≤ 13) || (28 ≤ c.toNat && c.toNat ≤ 31)

/-- Translation of `encrypt_qr_data`: reject empty or whitespace-only
text (`not qr_text or not qr_text.strip()`), build the Fernet cipher
over the decoded key (which must be 32 bytes) and return the tagged
token.  Every raised error is wrapped into
`SecurityError("Failed to encrypt QR data: ...")`. -/
def encrypt_qr_data (qr_text : List Char) (document_key : List Nat) :
    Except String EncryptedPayload :=
  if qr_text = [] || qr_text.all isPythonSpace then
    .error "Failed to encrypt QR data: QR text cannot be empty"
  else if document_key.length ≠ 32 then
    .error "Failed to encrypt QR data: Fernet key must be 32 url-safe base64-encoded bytes."
  else
    .ok { tagged := true, token := fernetEncrypt document_key qr_text }

/-- Translation of `decrypt_qr_data`: check the `"enc:"` tag, build the
Fernet cipher over the decoded key, decrypt.  An `InvalidToken` from
Fernet becomes `SecurityError("Decryption failed: Invalid key or
corrupted data")`; other errors are wrapped with the generic text. -/
def decrypt_qr_data (encrypted_data : EncryptedPayload) (document_key : List Nat) :
    Except String (List Char) :=
  if ¬ encrypted_data.tagged then
    .error "Failed to decrypt QR data: Invalid encrypted data format - must start with enc:"
  else if document_key.length ≠ 32 then
    .error "Failed to decrypt QR data: Fernet key must be 32 url-safe base64-encoded bytes."
  else
    match fernetDecrypt document_key encrypted_data.token with
    | .ok pt => .ok pt
    | .error e =>
      if e = "InvalidToken" then
        .error "Decryption failed: Invalid key or corrupted data"
      else
        .error ("Failed to decrypt QR data: " ++ e)

/-! ## Document key derivation (`generate_document_key`,
`generate_document_hash`) -/

/-- Translation of `generate_document_hash`, on the document content
(the chunked file read accumulates exactly the content bytes):
lowercase hex SHA-256 digest. -/
def generate_document_hash (content : List Nat) : String :=
  bytesToHex (sha256 content)

/-- Modelled from the spec: HMAC-SHA256 (`hmac` module / the MAC inside
PBKDF2), standard RFC 2104 construction with a 64-byte block. -/
def hmacSha256 (key msg : List Nat) : List Nat :=
  let k0 :=
    if 64 < key.length then sha256 key ++ List.replicate 32 0
    else key ++ List.replicate (64 - key.length) 0
  sha256 ((k0.map (fun b => b ^^^ 92)) ++ sha256 ((k0.map (fun b => b ^^^ 54)) ++ msg))

/-- Iterated xor chain of PBKDF2: given `U_i`, compute the remaining
iterations and fold them into the accumulator. -/
def pbkdf2Iter (password : List Nat) (u acc : List Nat) : Nat → List Nat
  | 0 => acc
  | n + 1 =>
    let u2 := hmacSha256 password u
    pbkdf2Iter password u2 (List.zipWith (fun a b => a ^^^ b) acc u2) n

/-- Modelled from the spec: `PBKDF2HMAC(SHA256, length=32, salt,
iterations)` of the `cryptography` library (RFC 2898); one output block
suffices for a 32-byte key. -/
def pbkdf2HmacSha256 (password salt : List Nat) (iterations : Nat) : List Nat :=
  let u1 := hmacSha256 password (salt ++ [0, 0, 0, 1])
  pbkdf2Iter password u1 u1 (iterations - 1)

/-- Urlsafe base64 digit. -/
def b64UrlChar (n : Nat) : Char :=
  "ABCDEFGHIJKLMNOPQRSTUVWXYZabcdefghijklmnopqrstuvwxyz0123456789-_".data.getD n (Char.ofNat 63)

/-- Urlsafe base64 groups of `base64.urlsafe_b64encode`. -/
def b64Groups : List Nat → List Char
  | [] => []
  | [b1] => [b64UrlChar (b1 / 4), b64UrlChar (b1 % 4 * 16), '=', '=']
  | [b1, b2] => [b64UrlChar (b1 / 4), b64UrlChar (b1 % 4 * 16 + b2 / 16),
      b64UrlChar (b2 % 16 * 4), '=']
  | b1 :: b2 :: b3 :: rest =>
    [b64UrlChar (b1 / 4), b64UrlChar (b1 % 4 * 16 + b2 / 16),
      b64UrlChar (b2 % 16 * 4 + b3 / 64), b64UrlChar (b3 % 64)] ++ b64Groups rest

/-- Translation of `base64.urlsafe_b64encode` to a string. -/
def urlsafe_b64encode (bytes : List Nat) : String := String.mk (b64Groups bytes)

/-- Translation of `generate_document_key`, on the document content
with the wall clock (`time.time()`, integral seconds) passed explicitly
as `now`: hash the document, bucket the time by hour, derive a 32-byte
key with PBKDF2-HMAC-SHA256 (100000 iterations) from
`"{doc_hash}:{bucket}:{additional_data}"` salted by the first 16 bytes
of the SHA-256 of the hex digest, and return it base64-encoded. -/
def generate_document_key (document_content : List Nat) (additional_data : String)
    (now : Nat) : String :=
  let doc_hash := generate_document_hash document_content
  let timestamp := toString (now / 3600)
  let key_material := strBytes (doc_hash ++ ":" ++ timestamp ++ ":" ++ additional_data)
  let salt := (sha256 (strBytes doc_hash)).take 16
  urlsafe_b64encode (pbkdf2HmacSha256 key_material salt 100000)

end Steno

namespace Steno

/-! ## Support lemmas -/

/-- Appending data to a CRC run chains the register state. -/
theorem crcUpdate_append (c : Nat) (a b : List Nat) :
    crcUpdate c (a ++ b) = crcUpdate (crcUpdate c a) b := by
  simp [crcUpdate, List.foldl_append]

/-- One `crcStep` always lands below `2 ^ 16` (both branches mask). -/
theorem crcStep_le (c : Nat) : crcStep c ≤ 65535 := by
  unfold crcStep
  split <;> exact Nat.and_le_right

/-- The per-byte inner loop of the CRC ends with a masked step. -/
theorem crcByteStep_le (crc byte : Nat) :
    (List.range 8).foldl (fun c _ => crcStep c) (crc ^^^ (byte <<< 8)) ≤ 65535 := by
  have h : (List.range 8).foldl (fun c _ => crcStep c) (crc ^^^ (byte <<< 8)) =
      crcStep ((List.range 7).foldl (fun c _ => crcStep c) (crc ^^^ (byte <<< 8))) := by
    simp [List.range_succ]
  rw [h]
  exact crcStep_le _

/-- A CRC run never leaves the register above `max c 65535`. -/
theorem crcUpdate_le (data : List Nat) : ∀ c : Nat, crcUpdate c data ≤ max c 65535 := by
  induction data with
  | nil => intro c; simp [crcUpdate]
  | cons b rest ih =>
    intro c
    have hstep := ih ((List.range 8).foldl (fun c _ => crcStep c) (c ^^^ (b <<< 8)))
    have hb := crcByteStep_le c b
    calc crcUpdate c (b :: rest)
        = crcUpdate ((List.range 8).foldl (fun c _ => crcStep c) (c ^^^ (b <<< 8))) rest := rfl
      _ ≤ _ := hstep
      _ ≤ max c 65535 := by omega

/-- The CRC-16 of the source is a 16-bit value. -/
theorem crc16_lt (data : List Nat) : _calculate_crc16 data < 65536 := by
  have := crcUpdate_le data 65535
  simp only [_calculate_crc16]
  omega

/-- Enough fuel makes `bitLenAux` monotone-bounded: a number below
`2 ^ k` has at most `k` binary digits. -/
theorem bitLenAux_le (fuel : Nat) : ∀ n k : Nat, n ≤ fuel → n < 2 ^ k → bitLenAux fuel n ≤ k := by
  induction fuel with
  | zero =>
    intro n k hn _
    simp [bitLenAux]
  | succ fuel ih =>
    intro n k hn hk
    by_cases h0 : n = 0
    · simp [bitLenAux, h0]
    · have hk1 : 1 ≤ k := by
        by_contra hlt
        have : k = 0 := by omega
        subst this
        simp at hk
        omega
      have hdiv : n / 2 ≤ fuel := by omega
      have hdiv2 : n / 2 < 2 ^ (k - 1) := by
        have h2 : 2 ^ k = 2 ^ (k - 1) * 2 := by
          rw [← Nat.pow_succ]
          congr 1
          omega
        omega
      have := ih (n / 2) (k - 1) hdiv hdiv2
      simp only [bitLenAux, h0, if_false]
      omega

/-- Enough fuel makes `bitLenAux` exact from below: `n < 2 ^ bitLenAux n`. -/
theorem bitLenAux_gt (fuel : Nat) : ∀ n : Nat, n ≤ fuel → n < 2 ^ bitLenAux fuel n := by
  induction fuel with
  | zero =>
    intro n hn
    simp [bitLenAux]
    omega
  | succ fuel ih =>
    intro n hn
    by_cases h0 : n = 0
    · simp [bitLenAux, h0]
    · have hdiv : n / 2 ≤ fuel := by omega
      have := ih (n / 2) hdiv
      simp only [bitLenAux, h0, if_false]
      rw [Nat.pow_succ]
      omega

/-- A number below `2 ^ k` has binary length at most `k` (for `k ≥ 1`). -/
theorem bitLen_le {n k : Nat} (hk : n < 2 ^ k) (hk0 : 0 < k) : bitLen n ≤ k := by
  unfold bitLen
  split
  · omega
  · exact bitLenAux_le n n k le_rfl hk

/-- Every number is below `2 ^ bitLen`. -/
theorem bitLen_gt (n : Nat) : n < 2 ^ bitLen n := by
  unfold bitLen
  split
  · omega
  · exact bitLenAux_gt n n le_rfl

/-- The digit list `natBits` has exactly `bitLen n` entries. -/
theorem natBits_length (n : Nat) : (natBits n).length = bitLen n := by
  simp [natBits]

/-- For values that fit, `_int_to_binary` returns exactly `bits`
digits, as the source relies on. -/
theorem int_to_binary_length {n k : Nat} (hn : n < 2 ^ k) (hk : 0 < k) :
    (_int_to_binary n k).length = k := by
  have hlen : (natBits n).length ≤ k := by
    rw [natBits_length]
    exact bitLen_le hn hk
  simp only [_int_to_binary, List.length_append, List.length_replicate]
  omega

/-- Decoding a snoc doubles the prefix value and adds the last bit. -/
theorem binary_to_int_concat (l : List Bool) (b : Bool) :
    _binary_to_int (l ++ [b]) = 2 * _binary_to_int l + (if b then 1 else 0) := by
  simp [_binary_to_int, List.foldl_append]

/-- Leading `false` digits do not change `_binary_to_int`. -/
theorem binary_to_int_replicate_false (m : Nat) (l : List Bool) :
    _binary_to_int (List.replicate m false ++ l) = _binary_to_int l := by
  induction m with
  | zero => simp
  | succ k ih =>
    have : List.replicate (k + 1) false ++ l = false :: (List.replicate k false ++ l) := by
      simp [List.replicate_succ]
    rw [this]
    simpa [_binary_to_int] using ih

/-- Decoding the most-significant-first `testBit` digit list recovers
the value. -/
theorem binary_to_int_testBits (len : Nat) :
    ∀ n : Nat, n < 2 ^ len →
      _binary_to_int ((List.range len).map (fun i => n.testBit (len - 1 - i))) = n := by
  induction len with
  | zero =>
    intro n hn
    simp [_binary_to_int]
    omega
  | succ k ih =>
    intro n hn
    have hsplit : (List.range (k + 1)).map (fun i => n.testBit (k + 1 - 1 - i)) =
        (List.range k).map (fun i => (n / 2).testBit (k - 1 - i)) ++ [n.testBit 0] := by
      rw [List.range_succ, List.map_append]
      congr 1
      · apply List.map_congr_left
        intro i hi
        have hik : i < k := List.mem_range.mp hi
        have : k + 1 - 1 - i = (k - 1 - i) + 1 := by omega
        rw [this, Nat.testBit_succ]
      · simp
    rw [hsplit, binary_to_int_concat]
    have hdiv : n / 2 < 2 ^ k := by
      rw [Nat.pow_succ] at hn
      omega
    rw [ih (n / 2) hdiv]
    have hbit : (if n.testBit 0 then 1 else 0) = n % 2 := by
      rw [Nat.testBit_zero]
      rcases Nat.mod_two_eq_zero_or_one n with h | h <;> simp [h]
    rw [hbit]
    omega

/-- Decoding inverts `natBits`. -/
theorem binary_to_int_natBits (n : Nat) : _binary_to_int (natBits n) = n := by
  rw [natBits]
  exact binary_to_int_testBits (bitLen n) n (bitLen_gt n)

/-- Decoding inverts `_int_to_binary` unconditionally (the
padding is only leading zeros). -/
theorem binary_to_int_int_to_binary (n k : Nat) :
    _binary_to_int (_int_to_binary n k) = n := by
  rw [_int_to_binary]
  rw [binary_to_int_replicate_false]
  exact binary_to_int_natBits n

/-- Every byte of a SHA-256 digest is below 256. -/
theorem sha256_byte_lt (msg : List Nat) : ∀ b ∈ sha256 msg, b < 256 := by
  have haux : ∀ (ws : List Nat) (acc : List Nat), (∀ b ∈ acc, b < 256) →
      ∀ b ∈ ws.foldl (fun acc w => acc ++ natToBytesBE w 4) acc, b < 256 := by
    intro ws
    induction ws with
    | nil => intro acc hacc b hb; exact hacc b hb
    | cons w rest ih =>
      intro acc hacc b hb
      refine ih (acc ++ natToBytesBE w 4) ?_ b hb
      intro x hx
      rcases List.mem_append.mp hx with h | h
      · exact hacc x h
      · rcases List.mem_map.mp h with ⟨i, _, hi⟩
        rw [← hi]
        exact Nat.mod_lt _ (by omega)
  intro b hb
  exact haux _ [] (by simp) b hb

/-- Big-endian decoding of a byte list stays below `256 ^ length`. -/
theorem bytesToNatBE_lt (l : List Nat) (hl : ∀ b ∈ l, b < 256) :
    bytesToNatBE l < 256 ^ l.length := by
  have haux : ∀ (l : List Nat) (a : Nat), (∀ b ∈ l, b < 256) →
      l.foldl (fun a b => a * 256 + b) a < (a + 1) * 256 ^ l.length := by
    intro l
    induction l with
    | nil => intro a _; simp
    | cons b rest ih =>
      intro a hl
      have hb : b < 256 := hl b (by simp)
      have := ih (a * 256 + b) (fun x hx => hl x (by simp [hx]))
      calc (b :: rest).foldl (fun a b => a * 256 + b) a
          = rest.foldl (fun a b => a * 256 + b) (a * 256 + b) := rfl
        _ < (a * 256 + b + 1) * 256 ^ rest.length := this
        _ ≤ (a + 1) * 256 ^ (b :: rest).length := by
            simp only [List.length_cons, Nat.pow_succ]
            have h1 : a * 256 + b + 1 ≤ (a + 1) * 256 := by omega
            calc (a * 256 + b + 1) * 256 ^ rest.length
                ≤ (a + 1) * 256 * 256 ^ rest.length := Nat.mul_le_mul_right _ h1
              _ = (a + 1) * (256 ^ rest.length * 256) := by ring
  simpa [bytesToNatBE] using haux l 0 hl

/-- The 32-bit key fingerprint really is 32 bits. -/
theorem key_hash_32bit_lt (key : String) : key_hash_32bit key < 2 ^ 32 := by
  have hmem : ∀ b ∈ (sha256 (strBytes key)).take 4, b < 256 := by
    intro b hb
    exact sha256_byte_lt (strBytes key) b (List.mem_of_mem_take hb)
  have hlen : ((sha256 (strBytes key)).take 4).length ≤ 4 := by
    simp
  have hlt := bytesToNatBE_lt _ hmem
  have hpow : (256 : Nat) ^ ((sha256 (strBytes key)).take 4).length ≤ 256 ^ 4 :=
    Nat.pow_le_pow_right (by omega) hlen
  unfold key_hash_32bit
  calc bytesToNatBE ((sha256 (strBytes key)).take 4) < 256 ^ ((sha256 (strBytes key)).take 4).length := hlt
    _ ≤ 256 ^ 4 := hpow
    _ ≤ 2 ^ 32 := by norm_num


/-- A successful header scan accepts exactly at 40 bits with the
terminator as bits 32–40: any `ok` result implies the first 40 bits of
the stream (after the accumulator) end in the terminator. -/
theorem scanHeader_ok_terminator (pixels : List Nat) :
    ∀ (acc : List Bool) (r : Nat × Nat × Nat),
      scanHeader pixels acc = .ok r →
      ((acc ++ pixels.map _extract_lsb).take 40).drop 32 = headerTerminator := by
  induction pixels with
  | nil =>
    intro acc r h
    simp [scanHeader] at h
  | cons p rest ih =>
    intro acc r h
    have hacc2 : acc ++ (p :: rest).map _extract_lsb =
        (acc ++ [_extract_lsb p]) ++ rest.map _extract_lsb := by
      simp
    rw [scanHeader] at h
    by_cases h40 : 16 + 16 + 8 ≤ (acc ++ [_extract_lsb p]).length
    · rw [if_pos h40] at h
      by_cases hdropEq :
          (acc ++ [_extract_lsb p]).drop ((acc ++ [_extract_lsb p]).length - 8) = headerTerminator
      · rw [if_pos hdropEq] at h
        by_cases hlen : (acc ++ [_extract_lsb p]).length - 8 = 32
        · have hlen40 : (acc ++ [_extract_lsb p]).length = 40 := by omega
          rw [hacc2]
          rw [← hlen40, List.take_left]
          rw [show (32 : Nat) = (acc ++ [_extract_lsb p]).length - 8 by omega]
          exact hdropEq
        · rw [if_neg hlen] at h
          cases h
      · rw [if_neg hdropEq] at h
        by_cases hbound : 16 + 16 + 8 + 500 < (acc ++ [_extract_lsb p]).length
        · rw [if_pos hbound] at h
          cases h
        · rw [if_neg hbound] at h
          have := ih (acc ++ [_extract_lsb p]) r h
          rwa [hacc2]
    · rw [if_neg h40] at h
      have := ih (acc ++ [_extract_lsb p]) r h
      rwa [hacc2]

/-- Bounded lookahead of the header scan: once the accumulator holds
`k ≤ 540` bits, the scan result is already determined by the next
`541 - k` pixels — pixels beyond that are never read. -/
theorem scanHeader_take (pixels : List Nat) :
    ∀ acc : List Bool, acc.length ≤ 540 →
      scanHeader pixels acc = scanHeader (pixels.take (541 - acc.length)) acc := by
  induction pixels with
  | nil => intro acc _; simp
  | cons p rest ih =>
    intro acc hle
    have htake : (p :: rest).take (541 - acc.length) =
        p :: rest.take (540 - acc.length) := by
      rw [show 541 - acc.length = (540 - acc.length) + 1 by omega]
      simp [List.take_succ_cons]
    rw [htake]
    rw [scanHeader, scanHeader]
    have hlen2 : (acc ++ [_extract_lsb p]).length = acc.length + 1 := by simp
    by_cases h40 : 16 + 16 + 8 ≤ (acc ++ [_extract_lsb p]).length
    · rw [if_pos h40, if_pos h40]
      by_cases hdropEq :
          (acc ++ [_extract_lsb p]).drop ((acc ++ [_extract_lsb p]).length - 8) = headerTerminator
      · rw [if_pos hdropEq, if_pos hdropEq]
      · rw [if_neg hdropEq, if_neg hdropEq]
        by_cases hbound : 16 + 16 + 8 + 500 < (acc ++ [_extract_lsb p]).length
        · rw [if_pos hbound, if_pos hbound]
        · rw [if_neg hbound, if_neg hbound]
          have hle2 : (acc ++ [_extract_lsb p]).length ≤ 540 := by omega
          rw [ih (acc ++ [_extract_lsb p]) hle2]
          congr 1
          rw [hlen2]
          congr 1
          omega
    · rw [if_neg h40, if_neg h40]
      have hle2 : (acc ++ [_extract_lsb p]).length ≤ 540 := by omega
      rw [ih (acc ++ [_extract_lsb p]) hle2]
      congr 1
      rw [hlen2]
      congr 1
      omega

theorem crcUpdate_chunk (c v : Nat) (a b : List Nat) (h1 : crcUpdate c a = v) :
    crcUpdate c (a ++ b) = crcUpdate v b := by
  rw [crcUpdate_append, h1]

theorem parse_add_security_header (qr_bits : List Bool) (key : String) (ts : Nat)
    (hts : ts < 2 ^ 32) :
    parse_security_header (add_security_header qr_bits key ts) =
      { key_hash_bits := _int_to_binary (key_hash_32bit key) 32
        key_hash_int := key_hash_32bit key
        timestamp := ts
        checksum := _calculate_crc16 (strBytes (bitsToBitChars qr_bits ++ key ++ toString ts))
        header_valid := true
        header_length := 80 } := by
  have hlA : (_int_to_binary (key_hash_32bit key) 32).length = 32 :=
    int_to_binary_length (key_hash_32bit_lt key) (by omega)
  have hlB : (_int_to_binary ts 32).length = 32 := int_to_binary_length hts (by omega)
  have hlC : (_int_to_binary
      (_calculate_crc16 (strBytes (bitsToBitChars qr_bits ++ key ++ toString ts))) 16).length = 16 :=
    int_to_binary_length (by simpa using crc16_lt _) (by omega)
  set A := _int_to_binary (key_hash_32bit key) 32 with hA
  set B := _int_to_binary ts 32 with hB
  set C := _int_to_binary
    (_calculate_crc16 (strBytes (bitsToBitChars qr_bits ++ key ++ toString ts))) 16 with hC
  have hheader : add_security_header qr_bits key ts = A ++ (B ++ C) := by
    simp [add_security_header, hA, hB, hC]
  have hlen : (A ++ (B ++ C)).length = 80 := by
    simp [hlA, hlB, hlC]
  have htake32 : (A ++ (B ++ C)).take 32 = A := by
    rw [← hlA]
    exact List.take_left A (B ++ C)
  have hdrop32 : (A ++ (B ++ C)).drop 32 = B ++ C := by
    rw [← hlA]
    exact List.drop_left A (B ++ C)
  have htakeB : (B ++ C).take 32 = B := by
    rw [← hlB]
    exact List.take_left B C
  have hdrop64 : (A ++ (B ++ C)).drop 64 = C := by
    rw [← List.append_assoc]
    rw [show (64 : Nat) = (A ++ B).length by simp [hlA, hlB]]
    exact List.drop_left (A ++ B) C
  have htakeC : C.take 16 = C := by
    rw [← hlC]
    exact List.take_length C
  rw [hheader]
  rw [parse_security_header, if_neg (by omega)]
  rw [htake32, hdrop32, htakeB, hdrop64, htakeC]
  simp only [hA, hB, hC]
  rw [binary_to_int_int_to_binary, binary_to_int_int_to_binary, binary_to_int_int_to_binary]

/-- The checksum field of the security header: bits 64–80 encode the
CRC-16 of the combined string `qr_bits + key + timestamp` (the raw key
string, not its fingerprint). -/
theorem add_security_header_drop64 (qr_bits : List Bool) (key : String) (ts : Nat)
    (hts : ts < 2 ^ 32) :
    (add_security_header qr_bits key ts).drop 64 =
      _int_to_binary
        (_calculate_crc16 (strBytes (bitsToBitChars qr_bits ++ key ++ toString ts))) 16 := by
  have hlA : (_int_to_binary (key_hash_32bit key) 32).length = 32 :=
    int_to_binary_length (key_hash_32bit_lt key) (by omega)
  have hlB : (_int_to_binary ts 32).length = 32 := int_to_binary_length hts (by omega)
  rw [show add_security_header qr_bits key ts =
      (_int_to_binary (key_hash_32bit key) 32 ++ _int_to_binary ts 32) ++
        _int_to_binary
          (_calculate_crc16 (strBytes (bitsToBitChars qr_bits ++ key ++ toString ts))) 16 by
    simp [add_security_header]]
  rw [show (64 : Nat) =
      (_int_to_binary (key_hash_32bit key) 32 ++ _int_to_binary ts 32).length by
    simp [hlA, hlB]]
  exact List.drop_left _ _

end Steno

namespace Steno

/-! ## Claim theorems -/

/-- C10: the capacity planner `validate_qr_for_image` is total — a plain
function that returns a result record for every quadruple of
non-negative dimensions, including a zero-area cover (the utilization
division is guarded and reports 0 when the capacity is 0), and its
`valid` field is true if and only if
`40 + qr_width*qr_height ≤ image_width*image_height`. -/
theorem c10_validate_qr_for_image_total (qw qh iw ih : Nat) :
    ((validate_qr_for_image qw qh iw ih).valid = true ↔ 40 + qw * qh ≤ iw * ih) ∧
    (iw * ih = 0 → (validate_qr_for_image qw qh iw ih).utilization_percentage = 0) := by
  constructor
  · simp [validate_qr_for_image]
  · intro h
    simp [validate_qr_for_image, h]

/-- C10 witness: on a zero-area cover the planner returns utilization 0. -/
theorem c10_validate_qr_for_image_total_witness :
    (validate_qr_for_image 1 1 0 0).utilization_percentage = 0 :=
  (c10_validate_qr_for_image_total 1 1 0 0).2 rfl

/-- C9: with auto-resize disabled, a failing capacity check makes
`embed_qr_to_image` raise the capacity `ValueError` (whose message
carries the exact bit deficit) before the pixel walk: the result is an
error, no stego image is produced, and the pure copy-then-modify
embedding leaves the caller's cover untouched. -/
theorem c9_capacity_failure_atomic (cover : Image) (qr : Matrix)
    (h : cover.width * cover.height < 40 + qr.width * qr.height) :
    embed_qr_to_image cover qr false =
      .error ("Kapasitas citra tidak cukup. QR terlalu besar untuk gambar ini. Kekurangan " ++
        toString ((40 + (qr.width * qr.height : Int)) - (cover.width * cover.height : Int)) ++
        " bit.") := by
  have hvalid : ¬ (16 + 16 + 8 + qr.width * qr.height ≤ cover.width * cover.height) := by omega
  have hdec : decide (16 + 16 + 8 + qr.width * qr.height ≤ cover.width * cover.height) = false := by
    simpa using hvalid
  have hx : (-(((cover.width * cover.height : Nat) : Int) -
      ((16 + 16 + 8 + qr.width * qr.height : Nat) : Int))) =
      (40 + (qr.width * qr.height : Int)) - (cover.width * cover.height : Int) := by
    push_cast
    ring
  simp only [embed_qr_to_image, validate_qr_for_image, hdec, Bool.false_eq_true,
    not_false_eq_true, if_true, if_false, if_pos hvalid, bind, Except.bind]
  rw [hx]
  congr 1

/-- C9 witness: a 2×2 cover cannot hold a 5×5 matrix; embedding in
strict mode errors with the 61-bit deficit. -/
theorem c9_capacity_failure_atomic_witness :
    embed_qr_to_image ⟨2, 2, [0, 0, 0, 0]⟩ ⟨5, 5, List.replicate 25 true⟩ false =
      .error "Kapasitas citra tidak cukup. QR terlalu besar untuk gambar ini. Kekurangan 61 bit." := by
  rw [c9_capacity_failure_atomic ⟨2, 2, [0, 0, 0, 0]⟩ ⟨5, 5, List.replicate 25 true⟩ (by decide)]
  decide

/-- C1: at exact capacity — `40 + 3*3 = 49 = 7*7`, permitted by the
claim's hypothesis `40 + w*h ≤ W*H` — the embedding walk consumes every
cover pixel without ever raising `StopIteration`, so the save inside
the `StopIteration` handler (the only save in `embed_qr_to_image`)
never executes: the function returns having written no stego file
(`Except.ok none`), and the round-trip `extract(embed(C, M)) = M` fails
because there is nothing to extract.  The source's own trailing comment
says this fall-through should be unreachable when capacity suffices. -/
theorem c1_exact_capacity_embed_saves_nothing :
    embed_qr_to_image ⟨7, 7, List.replicate 49 0⟩ ⟨3, 3, List.replicate 9 true⟩ true =
      .ok none := by decide

end Steno

namespace Steno

/-- C6: bounded terminator search in non-secure extraction.  If the
first 40 LSBs of the stego image do not end in the 8-bit terminator
(the only position at which a match leaves exactly 32 preceding header
bits — any later match fails the length check), extraction always
raises a `ValueError` and never reconstructs a matrix from guessed
dimensions; moreover the header scan is determined by the first
`40 + 500 + 1` extracted bits, pixels beyond that bound are never
consulted. -/
theorem c6_terminator_search_bounded (stego : Image)
    (hterm : ((stego.pixels.map _extract_lsb).take 40).drop 32 ≠ headerTerminator) :
    (∃ e, extract_qr_from_image stego = .error e) ∧
      scanHeader stego.pixels [] = scanHeader (stego.pixels.take 541) [] := by
  constructor
  · cases hscan : scanHeader stego.pixels [] with
    | error e =>
      exact ⟨e, by simp [extract_qr_from_image, hscan, bind, Except.bind]⟩
    | ok r =>
      exact absurd (by simpa using scanHeader_ok_terminator _ [] r hscan) hterm
  · simpa using scanHeader_take stego.pixels [] (by simp)

/-- C6 witness: a 40-pixel image whose 34th blue byte is odd has no
terminator at bits 32–40; extraction errors out. -/
theorem c6_terminator_search_bounded_witness :
    (∃ e, extract_qr_from_image
        ⟨40, 1, List.replicate 33 0 ++ [1] ++ List.replicate 6 0⟩ = .error e) ∧
      scanHeader (List.replicate 33 0 ++ [1] ++ List.replicate 6 0) [] =
        scanHeader ((List.replicate 33 0 ++ [1] ++ List.replicate 6 0).take 541) [] :=
  c6_terminator_search_bounded ⟨40, 1, List.replicate 33 0 ++ [1] ++ List.replicate 6 0⟩
    (by decide)

/-- C7 (amended): a matrix that does not fit a cover of capacity
`c > 40` bits is resized to `s × s` with `s = ⌊√(c − 40)⌋` by
nearest-neighbor sampling, so every resulting cell is an exact copy of
some original cell — in particular still a binary on/off value.  (The
`c ≤ 40` branch does fail with an error, but its message is a fixed
string that does not report the capacity deficit; see the
counterexample.) -/
theorem c7_resize_to_fit (m : Matrix) (c : Nat)
    (hm : m.cells.length = m.width * m.height)
    (hc : 40 < c) (hfit : c < 40 + m.width * m.height) :
    ∃ r, _resize_qr_for_capacity m c = .ok r ∧
      r.width = Nat.sqrt (c - 40) ∧ r.height = Nat.sqrt (c - 40) ∧
      ∀ b ∈ r.cells, b ∈ m.cells := by
  have hpos : ¬ ((c : Int) - (16 + 16 + 8) ≤ 0) := by omega
  have htoNat : ((c : Int) - (16 + 16 + 8)).toNat = c - 40 := by omega
  have hwh : 0 < m.width * m.height := by omega
  have hw : 0 < m.width := by
    rcases Nat.eq_zero_or_pos m.width with h | h
    · simp [h] at hwh
    · exact h
  have hh : 0 < m.height := by
    rcases Nat.eq_zero_or_pos m.height with h | h
    · simp [h] at hwh
    · exact h
  have hnotboth : ¬ (m.width ≤ Nat.sqrt (c - 40) ∧ m.height ≤ Nat.sqrt (c - 40)) := by
    rintro ⟨h1, h2⟩
    have hs : Nat.sqrt (c - 40) * Nat.sqrt (c - 40) ≤ c - 40 := Nat.sqrt_le (c - 40)
    have : m.width * m.height ≤ Nat.sqrt (c - 40) * Nat.sqrt (c - 40) :=
      Nat.mul_le_mul h1 h2
    omega
  refine ⟨nearestResize m (Nat.sqrt (c - 40)) (Nat.sqrt (c - 40)), ?_, rfl, rfl, ?_⟩
  · simp only [_resize_qr_for_capacity, if_neg hpos, htoNat, if_neg hnotboth]
  · intro b hb
    simp only [nearestResize, List.mem_map] at hb
    obtain ⟨k, hk, hbk⟩ := hb
    have hidx : nearestSampleIndex (k / Nat.sqrt (c - 40)) (Nat.sqrt (c - 40)) m.height * m.width +
        nearestSampleIndex (k % Nat.sqrt (c - 40)) (Nat.sqrt (c - 40)) m.width < m.cells.length := by
      have hj : nearestSampleIndex (k / Nat.sqrt (c - 40)) (Nat.sqrt (c - 40)) m.height ≤ m.height - 1 :=
        Nat.min_le_right _ _
      have hi : nearestSampleIndex (k % Nat.sqrt (c - 40)) (Nat.sqrt (c - 40)) m.width ≤ m.width - 1 :=
        Nat.min_le_right _ _
      have hmono : nearestSampleIndex (k / Nat.sqrt (c - 40)) (Nat.sqrt (c - 40)) m.height * m.width ≤
          (m.height - 1) * m.width := Nat.mul_le_mul_right _ hj
      have hw_le : m.width ≤ m.width * m.height := Nat.le_mul_of_pos_right _ hh
      have hsub : (m.height - 1) * m.width = m.width * m.height - m.width := by
        rw [Nat.sub_mul, one_mul, Nat.mul_comm]
      omega
    rw [← hbk, List.getD_eq_getElem _ _ hidx]
    exact List.getElem_mem _

set_option maxRecDepth 8192 in
/-- C7 counterexample: when `c − 40 ≤ 0` the raised error is the fixed
string "Kapasitas cover image terlalu kecil bahkan untuk header saja.",
which contains no digit whatsoever, so it cannot report the capacity
deficit the claim promises. -/
theorem c7_deficit_not_reported :
    _resize_qr_for_capacity ⟨21, 21, List.replicate 441 true⟩ 30 =
      .error "Kapasitas cover image terlalu kecil bahkan untuk header saja." ∧
    ∀ ch ∈ "Kapasitas cover image terlalu kecil bahkan untuk header saja.".data,
      ¬ ch.isDigit := by
  constructor
  · decide
  · decide

set_option maxRecDepth 8192 in
/-- C7 witness: the claim's own example — a 21×21 matrix against a
100-bit cover shrinks to `⌊√60⌋ × ⌊√60⌋ = 7 × 7`. -/
theorem c7_resize_to_fit_witness :
    ∃ r, _resize_qr_for_capacity ⟨21, 21, List.replicate 441 true⟩ 100 = .ok r ∧
      r.width = Nat.sqrt (100 - 40) ∧ r.height = Nat.sqrt (100 - 40) ∧
      ∀ b ∈ r.cells, b ∈ (⟨21, 21, List.replicate 441 true⟩ : Matrix).cells :=
  c7_resize_to_fit ⟨21, 21, List.replicate 441 true⟩ 100 (by decide) (by decide) (by decide)

end Steno

namespace Steno

/-- C5 (amended): the security header built at embed time is exactly 80
bits: a 32-bit key fingerprint equal to the first 4 bytes (big-endian)
of the SHA-256 digest of the key, then the 32-bit unix timestamp, then
a 16-bit CRC-16 — computed over the concatenation of the payload-bit
string, the RAW KEY STRING, and the decimal timestamp string (not over
the 32-bit fingerprint, as the claim states; see the counterexample). -/
theorem c5_security_header_layout (qr_bits : List Bool) (key : String) (ts : Nat)
    (hts : ts < 2 ^ 32) :
    (add_security_header qr_bits key ts).length = 80 ∧
    _binary_to_int ((add_security_header qr_bits key ts).take 32) =
      bytesToNatBE ((sha256 (strBytes key)).take 4) ∧
    _binary_to_int (((add_security_header qr_bits key ts).drop 32).take 32) = ts ∧
    _binary_to_int ((add_security_header qr_bits key ts).drop 64) =
      _calculate_crc16 (strBytes (bitsToBitChars qr_bits ++ key ++ toString ts)) := by
  have hlA : (_int_to_binary (key_hash_32bit key) 32).length = 32 :=
    int_to_binary_length (key_hash_32bit_lt key) (by omega)
  have hlB : (_int_to_binary ts 32).length = 32 := int_to_binary_length hts (by omega)
  have hlC : (_int_to_binary
      (_calculate_crc16 (strBytes (bitsToBitChars qr_bits ++ key ++ toString ts))) 16).length = 16 :=
    int_to_binary_length (by simpa using crc16_lt _) (by omega)
  set A := _int_to_binary (key_hash_32bit key) 32 with hA
  set B := _int_to_binary ts 32 with hB
  set C := _int_to_binary
    (_calculate_crc16 (strBytes (bitsToBitChars qr_bits ++ key ++ toString ts))) 16 with hC
  have hheader : add_security_header qr_bits key ts = A ++ (B ++ C) := by
    simp [add_security_header, hA, hB, hC]
  refine ⟨?_, ?_, ?_, ?_⟩
  · rw [hheader]
    simp [hlA, hlB, hlC]
  · rw [hheader, ← hlA, List.take_left, hA, binary_to_int_int_to_binary]
    rfl
  · rw [hheader, ← hlA, List.drop_left, hlA, ← hlB, List.take_left, hB,
      binary_to_int_int_to_binary]
  · rw [add_security_header_drop64 qr_bits key ts hts, binary_to_int_int_to_binary]

set_option maxRecDepth 8192 in
/-- C5 counterexample: the checksum field is the CRC-16 of
`payload bits + raw key + timestamp`, not of
`payload bits + 32-bit fingerprint + timestamp` as the claim states:
for the 4-bit payload 1011, a 44-character key and timestamp
1700000000 the embedded checksum is 8677 while the claim's computation
yields 8613. -/
theorem c5_checksum_not_over_fingerprint :
    _binary_to_int ((add_security_header [true, false, true, true]
        "U3VwZXJTZWNyZXREb2N1bWVudEtleTEyMzQ1Njc4OTA=" 1700000000).drop 64) ≠
      specDescribedChecksum [true, false, true, true]
        "U3VwZXJTZWNyZXREb2N1bWVudEtleTEyMzQ1Njc4OTA=" 1700000000 := by
  rw [add_security_header_drop64 _ _ _ (by norm_num), binary_to_int_int_to_binary]
  have hcode : _calculate_crc16 (strBytes (bitsToBitChars [true, false, true, true] ++
      "U3VwZXJTZWNyZXREb2N1bWVudEtleTEyMzQ1Njc4OTA=" ++ toString 1700000000)) = 8677 := by
    rw [_calculate_crc16]
    rw [show strBytes (bitsToBitChars [true, false, true, true] ++
        "U3VwZXJTZWNyZXREb2N1bWVudEtleTEyMzQ1Njc4OTA=" ++ toString 1700000000) =
      [49, 48, 49, 49, 85, 51, 86, 119, 90, 88, 74, 84, 90, 87, 78] ++
      ([121, 90, 88, 82, 69, 98, 50, 78, 49, 98, 87, 86, 117, 100, 69] ++
      ([116, 108, 101, 84, 69, 121, 77, 122, 81, 49, 78, 106, 99, 52, 79] ++
      [84, 65, 61, 49, 55, 48, 48, 48, 48, 48, 48, 48, 48])) from by decide]
    rw [crcUpdate_chunk 65535 49796 _ _ (by decide)]
    rw [crcUpdate_chunk 49796 18807 _ _ (by decide)]
    rw [crcUpdate_chunk 18807 50164 _ _ (by decide)]
    decide
  have hspec : specDescribedChecksum [true, false, true, true]
      "U3VwZXJTZWNyZXREb2N1bWVudEtleTEyMzQ1Njc4OTA=" 1700000000 = 8613 := by
    rw [specDescribedChecksum, _calculate_crc16]
    rw [show strBytes (bitsToBitChars [true, false, true, true] ++
        bitsToBitChars (_int_to_binary (key_hash_32bit
          "U3VwZXJTZWNyZXREb2N1bWVudEtleTEyMzQ1Njc4OTA=") 32) ++ toString 1700000000) =
      [49, 48, 49, 49, 49, 48, 48, 49, 49, 48, 49, 48, 49, 48, 49] ++
      ([49, 49, 49, 49, 48, 48, 49, 48, 49, 49, 48, 48, 49, 49, 48] ++
      ([48, 48, 49, 48, 48, 49, 49, 55, 48, 48, 48, 48, 48, 48, 48] ++
      [48])) from by decide]
    rw [crcUpdate_chunk 65535 42623 _ _ (by decide)]
    rw [crcUpdate_chunk 42623 57090 _ _ (by decide)]
    rw [crcUpdate_chunk 57090 13681 _ _ (by decide)]
    decide
  rw [hcode, hspec]
  decide

/-- C5 witness: layout of a concrete header (1-bit payload, 44-char
key, timestamp 1700000000). -/
theorem c5_security_header_layout_witness :
    (add_security_header [true]
        "U3VwZXJTZWNyZXREb2N1bWVudEtleTEyMzQ1Njc4OTA=" 1700000000).length = 80 ∧
    _binary_to_int ((add_security_header [true]
        "U3VwZXJTZWNyZXREb2N1bWVudEtleTEyMzQ1Njc4OTA=" 1700000000).take 32) =
      bytesToNatBE ((sha256 (strBytes "U3VwZXJTZWNyZXREb2N1bWVudEtleTEyMzQ1Njc4OTA=")).take 4) ∧
    _binary_to_int (((add_security_header [true]
        "U3VwZXJTZWNyZXREb2N1bWVudEtleTEyMzQ1Njc4OTA=" 1700000000).drop 32).take 32) =
      1700000000 ∧
    _binary_to_int ((add_security_header [true]
        "U3VwZXJTZWNyZXREb2N1bWVudEtleTEyMzQ1Njc4OTA=" 1700000000).drop 64) =
      _calculate_crc16 (strBytes (bitsToBitChars [true] ++
        "U3VwZXJTZWNyZXREb2N1bWVudEtleTEyMzQ1Njc4OTA=" ++ toString 1700000000)) :=
  c5_security_header_layout [true]
    "U3VwZXJTZWNyZXREb2N1bWVudEtleTEyMzQ1Njc4OTA=" 1700000000 (by norm_num)

/-- C3 (amended): validating a secure-embedded header with the
embedding key and a validation clock within ten years of the embedded
timestamp yields `overall_valid = true` and `security_score = 100`
PROVIDED the embedded CRC-16 checksum is nonzero (the validator only
tests the checksum for non-zeroness, so a payload whose CRC happens to
be 0 fails the checksum test — see the counterexample); with any key
whose 32-bit fingerprint differs the validation yields
`key_valid = false` and `security_score ≤ 50`. -/
theorem c3_authorization_scoring (qr_bits : List Bool) (key key2 : String) (ts now : Nat)
    (hts : ts < 2 ^ 32)
    (hcrc : _calculate_crc16 (strBytes (bitsToBitChars qr_bits ++ key ++ toString ts)) ≠ 0)
    (hnow : ((now : Int) - (ts : Int)).natAbs ≤ 10 * 365 * 24 * 3600)
    (hfp : key_hash_32bit key2 ≠ key_hash_32bit key) :
    ((validate_embedded_security (parse_security_header (add_security_header qr_bits key ts))
        key now).overall_valid = true ∧
     (validate_embedded_security (parse_security_header (add_security_header qr_bits key ts))
        key now).security_score = 100) ∧
    ((validate_embedded_security (parse_security_header (add_security_header qr_bits key ts))
        key2 now).key_valid = false ∧
     (validate_embedded_security (parse_security_header (add_security_header qr_bits key ts))
        key2 now).security_score ≤ 50) := by
  rw [parse_add_security_header qr_bits key ts hts]
  have hkv : (key_hash_32bit key == key_hash_32bit key) = true := by simp
  have hkv2 : (key_hash_32bit key == key_hash_32bit key2) = false := by
    simp
    exact fun h => hfp h.symm
  have htsv : decide (((now : Int) - (ts : Int)).natAbs ≤ 10 * 365 * 24 * 3600) = true :=
    decide_eq_true hnow
  have hcsv : (_calculate_crc16 (strBytes (bitsToBitChars qr_bits ++ key ++ toString ts)) != 0)
      = true := by simpa using hcrc
  refine ⟨⟨?_, ?_⟩, ?_, ?_⟩ <;>
    simp [validate_embedded_security, hkv, hkv2, htsv, hcsv]

/-- C4 (amended): the validator never recomputes a CRC: for every
parseable security header, `checksum_valid = true` if and only if the
carried checksum field is nonzero. -/
theorem c4_checksum_check_nonzero_only (hdr : SecHeader) (key : String) (now : Nat)
    (hvalid : hdr.header_valid = true) :
    (validate_embedded_security hdr key now).checksum_valid = true ↔ hdr.checksum ≠ 0 := by
  simp [validate_embedded_security, hvalid]

set_option maxRecDepth 8192 in
/-- C3 counterexample: the 3×3 payload 101010110 secure-embedded under
a 44-character key at (current) unix time 1700460476 has CRC-16
checksum exactly 0, so validating with the very same key at the very
same time gives `key_valid = true` but `checksum_valid = false`:
`overall_valid` is false and the score is 75, not 100 as claimed. -/
theorem c3_zero_checksum_scores_75 :
    (validate_embedded_security (parse_security_header (add_security_header
        [true, false, true, false, true, false, true, true, false]
        "U3VwZXJTZWNyZXREb2N1bWVudEtleTEyMzQ1Njc4OTA=" 1700460476))
      "U3VwZXJTZWNyZXREb2N1bWVudEtleTEyMzQ1Njc4OTA=" 1700460476).key_valid = true ∧
    (validate_embedded_security (parse_security_header (add_security_header
        [true, false, true, false, true, false, true, true, false]
        "U3VwZXJTZWNyZXREb2N1bWVudEtleTEyMzQ1Njc4OTA=" 1700460476))
      "U3VwZXJTZWNyZXREb2N1bWVudEtleTEyMzQ1Njc4OTA=" 1700460476).checksum_valid = false ∧
    (validate_embedded_security (parse_security_header (add_security_header
        [true, false, true, false, true, false, true, true, false]
        "U3VwZXJTZWNyZXREb2N1bWVudEtleTEyMzQ1Njc4OTA=" 1700460476))
      "U3VwZXJTZWNyZXREb2N1bWVudEtleTEyMzQ1Njc4OTA=" 1700460476).overall_valid = false ∧
    (validate_embedded_security (parse_security_header (add_security_header
        [true, false, true, false, true, false, true, true, false]
        "U3VwZXJTZWNyZXREb2N1bWVudEtleTEyMzQ1Njc4OTA=" 1700460476))
      "U3VwZXJTZWNyZXREb2N1bWVudEtleTEyMzQ1Njc4OTA=" 1700460476).security_score = 75 := by
  have hcrc : _calculate_crc16 (strBytes (bitsToBitChars
      [true, false, true, false, true, false, true, true, false] ++
      "U3VwZXJTZWNyZXREb2N1bWVudEtleTEyMzQ1Njc4OTA=" ++ toString 1700460476)) = 0 := by
    rw [_calculate_crc16]
    rw [show strBytes (bitsToBitChars
        [true, false, true, false, true, false, true, true, false] ++
        "U3VwZXJTZWNyZXREb2N1bWVudEtleTEyMzQ1Njc4OTA=" ++ toString 1700460476) =
      [49, 48, 49, 48, 49, 48, 49, 49, 48, 85, 51, 86, 119, 90, 88] ++
      ([74, 84, 90, 87, 78, 121, 90, 88, 82, 69, 98, 50, 78, 49, 98] ++
      ([87, 86, 117, 100, 69, 116, 108, 101, 84, 69, 121, 77, 122, 81, 49] ++
      ([78, 106, 99, 52, 79, 84, 65, 61, 49, 55, 48, 48, 52, 54, 48] ++
      [52, 55, 54]))) from by decide]
    rw [crcUpdate_chunk 65535 26362 _ _ (by decide)]
    rw [crcUpdate_chunk 26362 48267 _ _ (by decide)]
    rw [crcUpdate_chunk 48267 48329 _ _ (by decide)]
    rw [crcUpdate_chunk 48329 52553 _ _ (by decide)]
    decide
  rw [parse_add_security_header _ _ _ (by norm_num), hcrc]
  refine ⟨?_, ?_, ?_, ?_⟩ <;> decide

set_option maxRecDepth 8192 in
/-- C3 witness: a concrete embed at time 1700000000 (checksum 61109 ≠ 0)
validated with the same key scores 100; with a different-fingerprint
key it scores 50 with `key_valid = false`. -/
theorem c3_authorization_scoring_witness :
    ((validate_embedded_security (parse_security_header (add_security_header
        [true, false, true, false, true, false, true, true, false]
        "U3VwZXJTZWNyZXREb2N1bWVudEtleTEyMzQ1Njc4OTA=" 1700000000))
      "U3VwZXJTZWNyZXREb2N1bWVudEtleTEyMzQ1Njc4OTA=" 1700000000).overall_valid = true ∧
     (validate_embedded_security (parse_security_header (add_security_header
        [true, false, true, false, true, false, true, true, false]
        "U3VwZXJTZWNyZXREb2N1bWVudEtleTEyMzQ1Njc4OTA=" 1700000000))
      "U3VwZXJTZWNyZXREb2N1bWVudEtleTEyMzQ1Njc4OTA=" 1700000000).security_score = 100) ∧
    ((validate_embedded_security (parse_security_header (add_security_header
        [true, false, true, false, true, false, true, true, false]
        "U3VwZXJTZWNyZXREb2N1bWVudEtleTEyMzQ1Njc4OTA=" 1700000000))
      "QW5vdGhlckRvY3VtZW50U2VjdXJpdHlLZXk5ODc2NTQ=" 1700000000).key_valid = false ∧
     (validate_embedded_security (parse_security_header (add_security_header
        [true, false, true, false, true, false, true, true, false]
        "U3VwZXJTZWNyZXREb2N1bWVudEtleTEyMzQ1Njc4OTA=" 1700000000))
      "QW5vdGhlckRvY3VtZW50U2VjdXJpdHlLZXk5ODc2NTQ=" 1700000000).security_score ≤ 50) :=
  c3_authorization_scoring
    [true, false, true, false, true, false, true, true, false]
    "U3VwZXJTZWNyZXREb2N1bWVudEtleTEyMzQ1Njc4OTA="
    "QW5vdGhlckRvY3VtZW50U2VjdXJpdHlLZXk5ODc2NTQ=" 1700000000 1700000000
    (by norm_num)
    (by
      rw [_calculate_crc16]
      rw [show strBytes (bitsToBitChars
          [true, false, true, false, true, false, true, true, false] ++
          "U3VwZXJTZWNyZXREb2N1bWVudEtleTEyMzQ1Njc4OTA=" ++ toString 1700000000) =
        [49, 48, 49, 48, 49, 48, 49, 49, 48, 85, 51, 86, 119, 90, 88] ++
        ([74, 84, 90, 87, 78, 121, 90, 88, 82, 69, 98, 50, 78, 49, 98] ++
        ([87, 86, 117, 100, 69, 116, 108, 101, 84, 69, 121, 77, 122, 81, 49] ++
        ([78, 106, 99, 52, 79, 84, 65, 61, 49, 55, 48, 48, 48, 48, 48] ++
        [48, 48, 48]))) from by decide]
      rw [crcUpdate_chunk 65535 26362 _ _ (by decide)]
      rw [crcUpdate_chunk 26362 48267 _ _ (by decide)]
      rw [crcUpdate_chunk 48267 48329 _ _ (by decide)]
      rw [crcUpdate_chunk 48329 47919 _ _ (by decide)]
      decide)
    (by decide)
    (by decide)

set_option maxRecDepth 8192 in
/-- C4 counterexample: a header whose checksum field was tampered to 1
still gets `checksum_valid = true`, although 1 equals neither the CRC
the claim says is recomputed (over payload bits + fingerprint +
timestamp, = 13432) nor the CRC the embedder actually stored (over
payload bits + raw key + timestamp, = 65172): the claimed
"iff recomputed equals carried" is false. -/
theorem c4_wrong_nonzero_checksum_passes :
    (validate_embedded_security (parse_security_header
        (_int_to_binary (key_hash_32bit "U3VwZXJTZWNyZXREb2N1bWVudEtleTEyMzQ1Njc4OTA=") 32 ++
          _int_to_binary 1700000001 32 ++ _int_to_binary 1 16))
      "U3VwZXJTZWNyZXREb2N1bWVudEtleTEyMzQ1Njc4OTA=" 1700000001).checksum_valid = true ∧
    (parse_security_header
        (_int_to_binary (key_hash_32bit "U3VwZXJTZWNyZXREb2N1bWVudEtleTEyMzQ1Njc4OTA=") 32 ++
          _int_to_binary 1700000001 32 ++ _int_to_binary 1 16)).checksum = 1 ∧
    specDescribedChecksum [true, false, true, false, true, false, true, true, false]
      "U3VwZXJTZWNyZXREb2N1bWVudEtleTEyMzQ1Njc4OTA=" 1700000001 ≠ 1 ∧
    _calculate_crc16 (strBytes (bitsToBitChars
        [true, false, true, false, true, false, true, true, false] ++
        "U3VwZXJTZWNyZXREb2N1bWVudEtleTEyMzQ1Njc4OTA=" ++ toString 1700000001)) ≠ 1 := by
  have hspec : specDescribedChecksum [true, false, true, false, true, false, true, true, false]
      "U3VwZXJTZWNyZXREb2N1bWVudEtleTEyMzQ1Njc4OTA=" 1700000001 = 13432 := by
    rw [specDescribedChecksum, _calculate_crc16]
    rw [show strBytes (bitsToBitChars
        [true, false, true, false, true, false, true, true, false] ++
        bitsToBitChars (_int_to_binary (key_hash_32bit
          "U3VwZXJTZWNyZXREb2N1bWVudEtleTEyMzQ1Njc4OTA=") 32) ++ toString 1700000001) =
      [49, 48, 49, 48, 49, 48, 49, 49, 48, 49, 48, 48, 49, 49, 48] ++
      ([49, 48, 49, 48, 49, 49, 49, 49, 49, 48, 48, 49, 48, 49, 49] ++
      ([48, 48, 49, 49, 48, 48, 48, 49, 48, 48, 49, 49, 55, 48, 48] ++
      [48, 48, 48, 48, 48, 49])) from by decide]
    rw [crcUpdate_chunk 65535 15017 _ _ (by decide)]
    rw [crcUpdate_chunk 15017 21746 _ _ (by decide)]
    rw [crcUpdate_chunk 21746 56407 _ _ (by decide)]
    decide
  have hcode : _calculate_crc16 (strBytes (bitsToBitChars
      [true, false, true, false, true, false, true, true, false] ++
      "U3VwZXJTZWNyZXREb2N1bWVudEtleTEyMzQ1Njc4OTA=" ++ toString 1700000001)) = 65172 := by
    rw [_calculate_crc16]
    rw [show strBytes (bitsToBitChars
        [true, false, true, false, true, false, true, true, false] ++
        "U3VwZXJTZWNyZXREb2N1bWVudEtleTEyMzQ1Njc4OTA=" ++ toString 1700000001) =
      [49, 48, 49, 48, 49, 48, 49, 49, 48, 85, 51, 86, 119, 90, 88] ++
      ([74, 84, 90, 87, 78, 121, 90, 88, 82, 69, 98, 50, 78, 49, 98] ++
      ([87, 86, 117, 100, 69, 116, 108, 101, 84, 69, 121, 77, 122, 81, 49] ++
      ([78, 106, 99, 52, 79, 84, 65, 61, 49, 55, 48, 48, 48, 48, 48] ++
      [48, 48, 49]))) from by decide]
    rw [crcUpdate_chunk 65535 26362 _ _ (by decide)]
    rw [crcUpdate_chunk 26362 48267 _ _ (by decide)]
    rw [crcUpdate_chunk 48267 48329 _ _ (by decide)]
    rw [crcUpdate_chunk 48329 47919 _ _ (by decide)]
    decide
  refine ⟨?_, ?_, ?_, ?_⟩
  · decide
  · decide
  · rw [hspec]; decide
  · rw [hcode]; decide

/-- C4 witness: a literal header with nonzero checksum field 7. -/
theorem c4_checksum_check_nonzero_only_witness :
    (validate_embedded_security
        { key_hash_bits := [], key_hash_int := 0, timestamp := 0,
          checksum := 7, header_valid := true, header_length := 80 }
        "k" 0).checksum_valid = true ↔
      ({ key_hash_bits := [], key_hash_int := 0, timestamp := 0,
          checksum := 7, header_valid := true, header_length := 80 } : SecHeader).checksum ≠ 0 :=
  c4_checksum_check_nonzero_only
    { key_hash_bits := [], key_hash_int := 0, timestamp := 0,
      checksum := 7, header_valid := true, header_length := 80 } "k" 0 rfl

end Steno

namespace Steno

/-- C2 (amended): for every plaintext containing at least one
non-whitespace character and every valid document key (represented by
its decoded 32 bytes), decryption of the encryption returns exactly the
plaintext, and decryption under any distinct valid key fails closed
with `SecurityError("Decryption failed: Invalid key or corrupted
data")` — never a wrong plaintext.  (A non-empty but whitespace-only
plaintext is rejected by `encrypt_qr_data` itself; see the
counterexample.) -/
theorem c2_cipher_roundtrip (pt : List Char) (key key2 : List Nat)
    (hpt : ∃ c ∈ pt, isPythonSpace c = false)
    (hk : key.length = 32) (hk2 : key2.length = 32) (hne : key2 ≠ key) :
    ∃ ct, encrypt_qr_data pt key = .ok ct ∧
      decrypt_qr_data ct key = .ok pt ∧
      decrypt_qr_data ct key2 = .error "Decryption failed: Invalid key or corrupted data" := by
  obtain ⟨c, hc, hcw⟩ := hpt
  have hne' : pt ≠ [] := by
    intro h
    rw [h] at hc
    exact absurd hc (List.not_mem_nil c)
  have hall : pt.all isPythonSpace = false := by
    rw [List.all_eq_false]
    exact ⟨c, hc, by simp [hcw]⟩
  refine ⟨{ tagged := true, token := fernetEncrypt key pt }, ?_, ?_, ?_⟩
  · simp [encrypt_qr_data, hne', hall, hk]
  · simp [decrypt_qr_data, fernetDecrypt, fernetEncrypt, hk]
  · have hkk : ¬ (key = key2) := fun h => hne h.symm
    simp [decrypt_qr_data, fernetDecrypt, fernetEncrypt, hk2, hkk]

/-- C2 counterexample: the single-space plaintext " " is non-empty, yet
`encrypt_qr_data` raises `SecurityError` (its guard rejects
whitespace-only text), so `decrypt(encrypt(P, K), K) = P` fails for
this non-empty `P`. -/
theorem c2_whitespace_plaintext_rejected :
    encrypt_qr_data [' '] (List.replicate 32 0) =
      .error "Failed to encrypt QR data: QR text cannot be empty" := by decide

/-- C2 witness: round trip of "hello" under a concrete 32-byte key,
and failure under a key differing in the last byte. -/
theorem c2_cipher_roundtrip_witness :
    ∃ ct, encrypt_qr_data "hello".data (List.replicate 32 0) = .ok ct ∧
      decrypt_qr_data ct (List.replicate 32 0) = .ok "hello".data ∧
      decrypt_qr_data ct (List.replicate 31 0 ++ [1]) =
        .error "Decryption failed: Invalid key or corrupted data" :=
  c2_cipher_roundtrip "hello".data (List.replicate 32 0) (List.replicate 31 0 ++ [1])
    (by decide) (by decide) (by decide) (by decide)

/-- C8: document-key derivation is deterministic within a time bucket —
for byte-identical document content and context, two derivations whose
clocks fall in the same hour bucket (`t1 / 3600 = t2 / 3600`) return
the identical base64-encoded key: the bucket is the only
time-dependent input of the derivation. -/
theorem c8_document_key_deterministic (doc : List Nat) (additional_data : String)
    (t1 t2 : Nat) (h : t1 / 3600 = t2 / 3600) :
    generate_document_key doc additional_data t1 =
      generate_document_key doc additional_data t2 := by
  simp only [generate_document_key, h]

/-- C8 witness: clocks 7200 and 7205 share the hour bucket 2, so the
derived keys coincide. -/
theorem c8_document_key_deterministic_witness :
    generate_document_key [1, 2, 3] "user@example.com" 7200 =
      generate_document_key [1, 2, 3] "user@example.com" 7205 :=
  c8_document_key_deterministic [1, 2, 3] "user@example.com" 7200 7205 (by decide)

end Steno
